import Mathlib

/-!
Verification of `cladetime/util/sequence.py`: a shallow embedding of its
data model and operations, with theorems settling the specified claims.

Tables are modelled as lists of rows (or lists of named columns for the
eagerly-materialized assignment tables), Python exceptions as an explicit
error type, and observable I/O as explicit effect traces.
-/

/-- Python exceptions that the embedded functions can raise. -/
inductive PyError where
  | keyError : PyError
  | valueError : String → PyError
  | assertionError : String → PyError
  | unboundLocalError : String → PyError
  | systemExit : String → PyError
deriving DecidableEq, Repr

/-- A calendar date (year, month, day). -/
structure PyDate where
  year : Nat
  month : Nat
  day : Nat
deriving DecidableEq, Repr

/-- Number of days in a month of a given year (Gregorian calendar). -/
def daysInMonth (y m : Nat) : Nat :=
  if m = 2 then
    if (y % 4 = 0 && y % 100 != 0) || y % 400 = 0 then 29 else 28
  else if m = 1 || m = 3 || m = 5 || m = 7 || m = 8 || m = 10 || m = 12 then 31
  else if m = 4 || m = 6 || m = 9 || m = 11 then 30
  else 0

/-- Split a character list on a separator character (the semantics of a
single-character `str.split`); always returns at least one piece. -/
def splitOnChar (sep : Char) : List Char → List (List Char)
  | [] => [[]]
  | c :: cs =>
    match splitOnChar sep cs with
    | [] => if c = sep then [[], []] else [[c]]
    | r :: rs => if c = sep then [] :: r :: rs else (c :: r) :: rs

/-- Split a string on a separator character, as a list of strings. -/
def pySplit (s : String) (sep : Char) : List String :=
  (splitOnChar sep s.toList).map (fun cs => ⟨cs⟩)

/-- Does the character list consist of one or more decimal digits? -/
def isDigits (l : List Char) : Bool :=
  !l.isEmpty && l.all Char.isDigit

/-- Numeric value of an all-digit character list. -/
def digitsVal (l : List Char) : Nat :=
  l.foldl (fun acc c => acc * 10 + (c.toNat - 48)) 0

/-- Date cast used by the filter pipeline (`.cast with strict=False` on the
`date` column): parse an ISO `YYYY-MM-DD` string into a calendar date,
returning `none` when the string is not a valid calendar date. -/
def parseDate (s : String) : Option PyDate :=
  match splitOnChar '-' s.toList with
  | [ys, ms, ds] =>
    if isDigits ys && ys.length = 4 && isDigits ms && ms.length = 2
        && isDigits ds && ds.length = 2 then
      let y := digitsVal ys
      let m := digitsVal ms
      let d := digitsVal ds
      if 1 ≤ m && m ≤ 12 && 1 ≤ d && d ≤ daysInMonth y m then
        some ⟨y, m, d⟩
      else none
    else none
  | _ => none

/-- The valid US divisions used by `filter_covid_genome_metadata`:
`[state.name for state in us.states.STATES]` (the 50 states) extended with
"Washington DC" and "Puerto Rico". -/
def states : List String :=
  ["Alabama", "Alaska", "Arizona", "Arkansas", "California", "Colorado",
   "Connecticut", "Delaware", "Florida", "Georgia", "Hawaii", "Idaho",
   "Illinois", "Indiana", "Iowa", "Kansas", "Kentucky", "Louisiana",
   "Maine", "Maryland", "Massachusetts", "Michigan", "Minnesota",
   "Mississippi", "Missouri", "Montana", "Nebraska", "Nevada",
   "New Hampshire", "New Jersey", "New Mexico", "New York",
   "North Carolina", "North Dakota", "Ohio", "Oklahoma", "Oregon",
   "Pennsylvania", "Rhode Island", "South Carolina", "South Dakota",
   "Tennessee", "Texas", "Utah", "Vermont", "Virginia", "Washington",
   "West Virginia", "Wisconsin", "Wyoming", "Washington DC", "Puerto Rico"]

/-- A raw GenBank metadata row, restricted to the default column set
selected by `filter_covid_genome_metadata` (the `date` column is an
untyped string that may be null). -/
structure RawRow where
  clade_nextstrain : String
  country : String
  date : Option String
  division : String
  genbank_accession : String
  genbank_accession_rev : String
  host : String
deriving DecidableEq, Repr

/-- A row after the rename (`clade_nextstrain` → `clade`,
`division` → `location`) and the non-strict `date` cast. -/
structure FilteredRow where
  clade : String
  country : String
  date : Option PyDate
  location : String
  genbank_accession : String
  genbank_accession_rev : String
  host : String
deriving DecidableEq, Repr

/-- The row predicate of the `.filter` step: country is "USA", division is
in the valid-division list, host is "Homo sapiens". -/
def rowFilter (r : RawRow) : Bool :=
  r.country = "USA" && states.contains r.division && r.host = "Homo sapiens"

/-- The `.rename` + `.cast({"date": pl.Date}, strict=False)` steps: rename
the two columns and cast `date`, turning unparseable strings (and nulls)
into null. -/
def renameCast (r : RawRow) : FilteredRow :=
  { clade := r.clade_nextstrain
    country := r.country
    date := r.date.bind parseDate
    location := r.division
    genbank_accession := r.genbank_accession
    genbank_accession_rev := r.genbank_accession_rev
    host := r.host }

/-- `filter_covid_genome_metadata` with the default column set: select the
default columns, filter on country/division/host, rename, cast the date
non-strictly, and finally drop null dates (which also removes the nulls
introduced by the cast). -/
def filter_covid_genome_metadata (metadata : List RawRow) : List FilteredRow :=
  (((metadata.filter rowFilter).map renameCast).filter (fun r => r.date.isSome))

/-- The grouping key of `get_clade_counts`: (location, date, clade). -/
def cladeKey (r : FilteredRow) : String × Option PyDate × String :=
  (r.location, r.date, r.clade)

/-- A clade-count row: {location, date, clade, count}. -/
structure CladeCount where
  location : String
  date : Option PyDate
  clade : String
  count : Nat
deriving DecidableEq, Repr

/-- `get_clade_counts`: select the aggregation columns, group the filtered
rows by (location, date, clade) and emit one row per group with the group
size as `count` (group order is unspecified; this model emits groups in
order of first appearance). -/
def get_clade_counts (filtered_metadata : List FilteredRow) : List CladeCount :=
  let keys := (filtered_metadata.map cladeKey).dedup
  keys.map (fun k =>
    { location := k.1, date := k.2.1, clade := k.2.2
      count := (filtered_metadata.map cladeKey).countP (fun x => x = k) })

/-- A named column of an eagerly-materialized table. -/
structure Column where
  name : String
  values : List String
deriving DecidableEq, Repr

/-- An eagerly-materialized table (`pl.DataFrame`) as a list of columns. -/
structure DataFrame where
  cols : List Column
deriving DecidableEq, Repr

/-- `df.shape[0]`: the row count of the table. -/
def DataFrame.shape0 (df : DataFrame) : Nat :=
  ((df.cols.head?).map (fun c => c.values.length)).getD 0

/-- Every column of the table has the table's row count. -/
def DataFrame.wellFormed (df : DataFrame) : Prop :=
  ∀ c ∈ df.cols, c.values.length = df.shape0

/-- Look up a column's values by name. -/
def DataFrame.getColumn (df : DataFrame) (n : String) : Option (List String) :=
  ((df.cols.find? (fun c => c.name = n)).map (fun c => c.values))

/-- Insert an element at an index of a list, appending when the index is
past the end (the semantics of inserting a column at position `i`). -/
def insertAt (i : Nat) (a : α) : List α → List α
  | [] => [a]
  | x :: xs =>
    match i with
    | 0 => a :: x :: xs
    | n + 1 => x :: insertAt n a xs

/-- The first space-delimited token of a label
(`seqName.str.split(" ").str[0]`). -/
def firstToken (s : String) : String :=
  (pySplit s ' ').headD ""

/-- Error message raised by `parse_sequence_assignments` on duplicates. -/
def dupMsg : String :=
  "Clade assignment data contains duplicate sequence. Stopping assignment process."

/-- `parse_sequence_assignments`: extract the first token of each `seqName`
value as `seq`; fail with a ValueError if the number of distinct `seq`
values differs from the row count; otherwise insert `seq` as the second
column and return the table. -/
def parse_sequence_assignments (df_assignments : DataFrame) : Except PyError DataFrame :=
  match df_assignments.getColumn "seqName" with
  | none => .error .keyError
  | some vals =>
    let seq := vals.map firstToken
    if seq.dedup.length ≠ df_assignments.shape0 then
      .error (.valueError dupMsg)
    else
      .ok ⟨insertAt 1 ⟨"seq", seq⟩ df_assignments.cols⟩

/-- Is `pat` a leading segment of `l`? -/
def startsWith : List Char → List Char → Bool
  | [], _ => true
  | _ :: _, [] => false
  | p :: ps, c :: cs => p = c && startsWith ps cs

/-- Substring containment on character lists (Python's `pat in s`). -/
def containsSub (pat : List Char) : List Char → Bool
  | [] => startsWith pat []
  | c :: cs => startsWith pat (c :: cs) || containsSub pat cs

/-- Python's `pat in s` on strings. -/
def strContains (s pat : String) : Bool :=
  containsSub pat.toList s.toList

/-- `_unzip_sequence_package`: given the archive's member list and the
current contents of the destination directory, extract all members iff
some member name contains "data_report" and some member name contains
"genomic"; otherwise raise SystemExit and leave the destination
unchanged. Returns the new destination contents and the outcome. -/
def _unzip_sequence_package (zipContents destination : List String) :
    List String × Except PyError Unit :=
  match zipContents.find? (fun s => strContains s "data_report"),
        zipContents.find? (fun s => strContains s "genomic") with
  | some _, some _ => (destination ++ zipContents, .ok ())
  | _, _ => (destination, .error (.systemExit "Error downloading NCBI package"))

/-- `strptime(s, "%Y-%m-%d")`: exactly four year digits, one or two month
and day digits, and the resulting date must be a valid calendar date;
returns `none` where Python raises ValueError. -/
def pyStrptimeYmd (s : String) : Option PyDate :=
  match splitOnChar '-' s.toList with
  | [ys, ms, ds] =>
    if isDigits ys && ys.length = 4 && isDigits ms && ms.length ≤ 2
        && isDigits ds && ds.length ≤ 2 then
      let y := digitsVal ys
      let m := digitsVal ms
      let d := digitsVal ds
      if 1 ≤ m && m ≤ 12 && 1 ≤ d && d ≤ daysInMonth y m then
        some ⟨y, m, d⟩
      else none
    else none
  | _ => none

/-- Decimal representation of `n` left-padded with zeros to width `w`. -/
def padNum (w n : Nat) : String :=
  (⟨List.replicate (w - (toString n).length) '0'⟩ : String) ++ toString n

/-- `date.strftime("%Y-%m-%d")`. -/
def formatDate (d : PyDate) : String :=
  padNum 4 d.year ++ "-" ++ padNum 2 d.month ++ "-" ++ padNum 2 d.day

/-- `Path(p).name`: the final path component. -/
def basename (p : String) : String :=
  (pySplit p '/').getLastD ""

/-- An observable network request made by the package fetcher. -/
inductive NetEffect where
  | resolveVersion : NetEffect
  | httpGet : String → NetEffect
deriving DecidableEq, Repr

/-- Modelled from the spec: `_get_s3_object_url` (imported from
`cladetime.util.reference`, not under src/) is the Temporal Object
Resolver, "consumed via a resolve version as-of call
`(bucket, key, timestamp) -> (version_id, url)`" against the object-store
collaborator — a network request to the object store. The model takes the
resolver's answer as a parameter and records the request it makes. -/
def _get_s3_object_url (resolved : String × String) :
    (String × String) × List NetEffect :=
  (resolved, [.resolveVersion])

/-- `download_covid_genome_metadata`: resolve the as-of date (now when
`as_of` is None, else `strptime`), call the object resolver, build the
date-stamped filename under `data_path`, and either reuse an existing file
with that exact name (when `use_existing`) or stream the payload from the
resolved URL. Returns the path together with the trace of network
requests made. -/
def download_covid_genome_metadata (resolved : String × String)
    (key dataPath : String) (asOf : Option String) (now : PyDate)
    (useExisting : Bool) (existingFiles : List String) :
    Except PyError (String × List NetEffect) :=
  match (match asOf with | none => some now | some s => pyStrptimeYmd s) with
  | none => .error (.valueError "time data does not match format %Y-%m-%d")
  | some dt =>
    let res := _get_s3_object_url resolved
    let s3_url := res.1.2
    let filename := dataPath ++ "/" ++ formatDate dt ++ "-" ++ basename key
    if useExisting && existingFiles.contains filename then
      .ok (filename, res.2)
    else
      .ok (filename, res.2 ++ [.httpGet s3_url])

/-- The lazy tabular handle produced by the metadata loader: which source
it will read and with which row cap. -/
inductive LazyFrameSrc where
  | scanCsvUrl : String → Option Nat → LazyFrameSrc
  | scanCsvPath : String → Option Nat → LazyFrameSrc
  | readCsvXz : String → Option Nat → LazyFrameSrc
deriving DecidableEq, Repr

/-- An observable I/O action performed by the metadata loader itself
(eager reads; lazy scans perform none at call time). -/
inductive IOEffect where
  | readFile : String → IOEffect
deriving DecidableEq, Repr

/-- Python truthiness of a string. -/
def truthyStr (s : String) : Bool :=
  s ≠ ""

/-- `Path(p).suffix`: the extension of the final component, i.e. `name[i:]`
for the last dot index `i` when `0 < i < len(name) - 1`, else "". -/
def pySuffix (p : String) : String :=
  let parts := pySplit (basename p) '.'
  match parts with
  | [] => ""
  | [_] => ""
  | _ =>
    if parts.dropLast = [""] || parts.getLastD "" = "" then ""
    else "." ++ parts.getLastD ""

/-- `get_covid_genome_metadata`: assert that exactly one of
`metadata_path`/`metadata_url` is given, then dispatch — a truthy URL is
scanned lazily; a path with suffix ".tsv"/".zst" is scanned lazily, with
".xz" it is decompressed and read eagerly; any other case reaches `return
metadata` with the local variable never assigned (UnboundLocalError).
Returns the I/O actions performed and the outcome. -/
def get_covid_genome_metadata (metadata_path metadata_url : Option String)
    (num_rows : Option Nat) : List IOEffect × Except PyError LazyFrameSrc :=
  if metadata_path.isSome.toNat + metadata_url.isSome.toNat ≠ 1 then
    ([], .error (.assertionError "Specify metadata_path or metadata_url, but not both."))
  else
    match (match metadata_url with
           | some u => if truthyStr u then some u else none
           | none => none) with
    | some u => ([], .ok (.scanCsvUrl u num_rows))
    | none =>
      match metadata_path with
      | some p =>
        if pySuffix p = ".tsv" || pySuffix p = ".zst" then
          ([], .ok (.scanCsvPath p num_rows))
        else if pySuffix p = ".xz" then
          ([.readFile p], .ok (.readCsvXz p num_rows))
        else
          ([], .error (.unboundLocalError "metadata"))
      | none => ([], .error (.unboundLocalError "metadata"))

/-- A row with division "California" and valid date, passing all filters. -/
def calRow : RawRow :=
  ⟨"24A", "USA", some "2024-03-15", "California", "OQ000001", "OQ000001.1", "Homo sapiens"⟩

/-- A row with division "Ontario" (not a valid US division). -/
def ontarioRow : RawRow :=
  ⟨"24A", "USA", some "2024-03-15", "Ontario", "OQ000002", "OQ000002.1", "Homo sapiens"⟩

/-- A row whose date string is not a valid calendar date. -/
def badDateRow : RawRow :=
  ⟨"24B", "USA", some "2023-13-45", "California", "OQ000003", "OQ000003.1", "Homo sapiens"⟩

/-- A row whose date is already null on ingest. -/
def nullDateRow : RawRow :=
  ⟨"24B", "USA", none, "Texas", "OQ000004", "OQ000004.1", "Homo sapiens"⟩

/-- A two-row assignment table whose seqName first tokens are distinct. -/
def dfDistinct : DataFrame :=
  ⟨[⟨"seqName", ["SEQ1 a b", "SEQ2 c d"]⟩, ⟨"clade", ["24A", "24B"]⟩]⟩

/-- A two-row assignment table whose seqName first tokens collide. -/
def dfDup : DataFrame :=
  ⟨[⟨"seqName", ["SEQ1 a b", "SEQ1 c d"]⟩, ⟨"clade", ["24A", "24B"]⟩]⟩

example : parseDate "2024-03-15" = some ⟨2024, 3, 15⟩ := by decide
example : parseDate "2023-13-45" = none := by decide
example : states.contains "California" = true := by decide
example : states.contains "Ontario" = false := by decide
example : firstToken "SEQ001 some description" = "SEQ001" := by decide
example : strContains "ncbi_dataset/data/data_report.jsonl" "data_report" = true := by decide
example : strContains "ncbi_dataset/data/report.jsonl" "genomic" = false := by decide
example : pySuffix "/data/metadata.tsv.zst" = ".zst" := by decide
example : formatDate ⟨2024, 3, 1⟩ = "2024-03-01" := by decide
example : basename "files/ncov/open/metadata.tsv.zst" = "metadata.tsv.zst" := by decide

/-- Every row of the filter's output satisfies the invariant: country
"USA", location in the valid-division list, host "Homo sapiens", and a
non-null (successfully cast) date. -/
lemma filter_output_invariant (metadata : List RawRow) :
    ∀ r ∈ filter_covid_genome_metadata metadata,
      r.country = "USA" ∧ r.location ∈ states ∧ r.host = "Homo sapiens" ∧
      r.date.isSome = true := by
  intro r hr
  unfold filter_covid_genome_metadata at hr
  rw [List.mem_filter] at hr
  obtain ⟨hmap, hdate⟩ := hr
  rw [List.mem_map] at hmap
  obtain ⟨r0, hr0, rfl⟩ := hmap
  rw [List.mem_filter] at hr0
  obtain ⟨-, hfilt⟩ := hr0
  unfold rowFilter at hfilt
  simp only [Bool.and_eq_true, decide_eq_true_eq] at hfilt
  obtain ⟨⟨hc, hdiv⟩, hh⟩ := hfilt
  refine ⟨hc, ?_, hh, hdate⟩
  simpa [renameCast, List.elem_iff] using hdiv

/-- No input row passing the country/division/host filters whose date
string casts successfully is dropped by the filter pipeline. -/
lemma filter_no_drop (metadata : List RawRow) :
    ∀ r ∈ metadata, r.country = "USA" → r.division ∈ states →
      r.host = "Homo sapiens" →
      ∀ s, r.date = some s → (parseDate s).isSome = true →
      renameCast r ∈ filter_covid_genome_metadata metadata := by
  intro r hr hc hdiv hh s hs hp
  unfold filter_covid_genome_metadata
  rw [List.mem_filter]
  refine ⟨List.mem_map_of_mem _ ?_, ?_⟩
  · rw [List.mem_filter]
    refine ⟨hr, ?_⟩
    unfold rowFilter
    simp [hc, hh, List.elem_iff, hdiv]
  · simp [renameCast, hs, hp]

/-- Claim C1: with the default column set, every output row of
`filter_covid_genome_metadata` satisfies country = "USA", location in the
valid US-division set, host = "Homo sapiens" and a non-null date; and no
input row satisfying those conditions is dropped, except when its date
string fails the calendar-date cast. -/
theorem filter_metadata_invariant_and_completeness_C1 (metadata : List RawRow) :
    (∀ r ∈ filter_covid_genome_metadata metadata,
      r.country = "USA" ∧ r.location ∈ states ∧ r.host = "Homo sapiens" ∧
      r.date.isSome = true) ∧
    (∀ r ∈ metadata, r.country = "USA" → r.division ∈ states →
      r.host = "Homo sapiens" →
      ∀ s, r.date = some s → (parseDate s).isSome = true →
      renameCast r ∈ filter_covid_genome_metadata metadata) :=
  ⟨filter_output_invariant metadata, filter_no_drop metadata⟩

/-- Witness for C1 at a concrete input: the California row is retained. -/
theorem filter_metadata_invariant_and_completeness_C1_witness :
    renameCast calRow ∈ filter_covid_genome_metadata [calRow, ontarioRow] :=
  (filter_metadata_invariant_and_completeness_C1 [calRow, ontarioRow]).2
    calRow (by decide) (by decide) (by decide) (by decide)
    "2024-03-15" (by decide) (by decide)

/-- Claim C2: the date cast is non-strict (an unparseable string such as
"2023-13-45" becomes null instead of raising) and the null-date filter
runs after the cast, so rows with unparseable or already-null dates are
excluded; concretely, a valid "California" row appears in the output with
location "California" while an "Ontario" row, a bad-date row and a
null-date row are excluded. -/
theorem filter_metadata_cast_then_null_filter_C2 :
    (∀ (metadata : List RawRow) (r : FilteredRow),
      r ∈ filter_covid_genome_metadata metadata → r.date.isSome = true) ∧
    (∀ r : RawRow, r.date = some "2023-13-45" → (renameCast r).date = none) ∧
    filter_covid_genome_metadata [calRow, ontarioRow, badDateRow, nullDateRow] =
      [renameCast calRow] ∧
    (renameCast calRow).location = "California" ∧
    (renameCast calRow).date = some ⟨2024, 3, 15⟩ := by
  refine ⟨?_, ?_, by decide, by decide, by decide⟩
  · intro metadata r hr
    exact (filter_output_invariant metadata r hr).2.2.2
  · intro r hr
    simp [renameCast, hr]
    decide

/-- Witness for C2 at a concrete input: the bad-date row casts to null. -/
theorem filter_metadata_cast_then_null_filter_C2_witness :
    (renameCast badDateRow).date = none :=
  filter_metadata_cast_then_null_filter_C2.2.1 badDateRow (by decide)

/-- Claim C3: `get_clade_counts` groups the filtered rows by
(location, date, clade); the counts over all groups sum to the row count
of the filtered input, and every filtered row matches exactly one emitted
count row. -/
theorem clade_counts_partition_C3 (filtered : List FilteredRow) :
    ((get_clade_counts filtered).map CladeCount.count).sum = filtered.length ∧
    ∀ r ∈ filtered,
      ((get_clade_counts filtered).countP
        (fun c => (c.location, c.date, c.clade) = cladeKey r)) = 1 := by
  constructor
  · unfold get_clade_counts
    rw [List.map_map]
    have h := List.sum_map_count_dedup_eq_length (filtered.map cladeKey)
    rw [List.length_map] at h
    exact h
  · intro r hr
    unfold get_clade_counts
    rw [List.countP_map]
    have hmem : cladeKey r ∈ (filtered.map cladeKey).dedup :=
      List.mem_dedup.mpr (List.mem_map_of_mem _ hr)
    exact List.count_eq_one_of_mem (List.nodup_dedup (filtered.map cladeKey)) hmem

/-- Witness for C3 at a concrete input: a two-row filtered table in one
group yields exactly one matching count row for its first row. -/
theorem clade_counts_partition_C3_witness :
    ((get_clade_counts [renameCast calRow, renameCast calRow]).countP
      (fun c => (c.location, c.date, c.clade) = cladeKey (renameCast calRow))) = 1 :=
  (clade_counts_partition_C3 [renameCast calRow, renameCast calRow]).2
    (renameCast calRow) (by decide)

/-- Every element of `insertAt i a l` is `a` or an element of `l`. -/
lemma mem_insertAt {α : Type} (a y : α) :
    ∀ (i : Nat) (l : List α), y ∈ insertAt i a l → y = a ∨ y ∈ l := by
  intro i l
  induction l generalizing i with
  | nil =>
    intro h
    simp [insertAt] at h
    exact Or.inl h
  | cons x xs ih =>
    intro h
    cases i with
    | zero =>
      simp [insertAt] at h
      rcases h with h | h | h
      · exact Or.inl h
      · exact Or.inr (by simp [h])
      · exact Or.inr (by simp [h])
    | succ n =>
      simp only [insertAt, List.mem_cons] at h
      rcases h with h | h
      · exact Or.inr (by simp [h])
      · rcases ih n h with h | h
        · exact Or.inl h
        · exact Or.inr (List.mem_cons_of_mem _ h)

/-- If a column lookup succeeds, the found column is in the table and has
the looked-up values. -/
lemma getColumn_mem (df : DataFrame) (n : String) (vals : List String)
    (h : df.getColumn n = some vals) :
    ∃ c ∈ df.cols, c.values = vals := by
  unfold DataFrame.getColumn at h
  rcases hf : df.cols.find? (fun c => c.name = n) with _ | c
  · rw [hf] at h; simp at h
  · rw [hf] at h
    simp at h
    exact ⟨c, List.mem_of_find?_eq_some hf, h⟩

/-- Claim C4: `parse_sequence_assignments` fails with the duplicate-
sequence ValueError iff the number of distinct extracted first tokens of
seqName differs from the table's row count; on failure no table is
returned. -/
theorem parse_assignments_duplicate_error_C4 (df : DataFrame)
    (vals : List String) (h : df.getColumn "seqName" = some vals) :
    (parse_sequence_assignments df = .error (.valueError dupMsg) ↔
      (vals.map firstToken).dedup.length ≠ df.shape0) ∧
    (∀ out, parse_sequence_assignments df = .ok out →
      (vals.map firstToken).dedup.length = df.shape0) := by
  unfold parse_sequence_assignments
  rw [h]
  by_cases hne : (vals.map firstToken).dedup.length = df.shape0
  · simp [hne]
  · simp [hne]

/-- Witness for C4 at a concrete input: a duplicated first token makes the
parse fail with the duplicate-sequence error. -/
theorem parse_assignments_duplicate_error_C4_witness :
    parse_sequence_assignments dfDup = .error (.valueError dupMsg) :=
  (parse_assignments_duplicate_error_C4 dfDup ["SEQ1 a b", "SEQ1 c d"]
    (by decide)).1.mpr (by decide)

/-- Claim C5: on a table whose N rows have N distinct seqName first
tokens, `parse_sequence_assignments` returns the table with the extracted
tokens inserted as a new "seq" column in second position, all other
columns unchanged, and every column of the output still has N rows. -/
theorem parse_assignments_success_C5 (df : DataFrame) (vals : List String)
    (h : df.getColumn "seqName" = some vals) (hwf : df.wellFormed)
    (hn : (vals.map firstToken).dedup.length = df.shape0) :
    parse_sequence_assignments df =
      .ok ⟨insertAt 1 ⟨"seq", vals.map firstToken⟩ df.cols⟩ ∧
    ∀ c ∈ insertAt 1 ⟨"seq", vals.map firstToken⟩ df.cols,
      c.values.length = df.shape0 := by
  constructor
  · unfold parse_sequence_assignments
    rw [h]
    simp [hn]
  · intro c hc
    rcases mem_insertAt _ c 1 df.cols hc with hceq | hcin
    · obtain ⟨c0, hc0, hc0v⟩ := getColumn_mem df "seqName" vals h
      rw [hceq]
      simpa [hc0v] using hwf c0 hc0
    · exact hwf c hcin

/-- Witness for C5 at a concrete input: distinct tokens give the expected
output table. -/
theorem parse_assignments_success_C5_witness :
    parse_sequence_assignments dfDistinct =
      .ok ⟨insertAt 1 ⟨"seq", ["SEQ1 a b", "SEQ2 c d"].map firstToken⟩ dfDistinct.cols⟩ :=
  (parse_assignments_success_C5 dfDistinct ["SEQ1 a b", "SEQ2 c d"]
    (by decide) (by unfold DataFrame.wellFormed; decide) (by decide)).1

/-- Claim C6: `_unzip_sequence_package` extracts the full archive contents
to the destination iff the member list has a member containing
"data_report" and a member containing "genomic"; otherwise it raises
SystemExit (a fatal exit, not a normal error return) and the destination
is unchanged. -/
theorem unzip_package_validation_C6 (zipContents destination : List String) :
    (((∃ m ∈ zipContents, strContains m "data_report" = true) ∧
        (∃ m ∈ zipContents, strContains m "genomic" = true)) →
      _unzip_sequence_package zipContents destination =
        (destination ++ zipContents, .ok ())) ∧
    (¬((∃ m ∈ zipContents, strContains m "data_report" = true) ∧
        (∃ m ∈ zipContents, strContains m "genomic" = true)) →
      _unzip_sequence_package zipContents destination =
        (destination, .error (.systemExit "Error downloading NCBI package"))) := by
  unfold _unzip_sequence_package
  rcases h1 : zipContents.find? (fun s => strContains s "data_report") with _ | m1 <;>
    rcases h2 : zipContents.find? (fun s => strContains s "genomic") with _ | m2
  · refine ⟨?_, fun _ => rfl⟩
    rintro ⟨⟨m, hm, hp⟩, -⟩
    exact absurd hp (by simpa using List.find?_eq_none.mp h1 m hm)
  · refine ⟨?_, fun _ => rfl⟩
    rintro ⟨⟨m, hm, hp⟩, -⟩
    exact absurd hp (by simpa using List.find?_eq_none.mp h1 m hm)
  · refine ⟨?_, fun _ => rfl⟩
    rintro ⟨-, ⟨m, hm, hp⟩⟩
    exact absurd hp (by simpa using List.find?_eq_none.mp h2 m hm)
  · refine ⟨fun _ => rfl, ?_⟩
    intro hn
    refine absurd ⟨⟨m1, List.mem_of_find?_eq_some h1, ?_⟩,
      ⟨m2, List.mem_of_find?_eq_some h2, ?_⟩⟩ hn
    · simpa using List.find?_some h1
    · simpa using List.find?_some h2

/-- Witness for C6 at a concrete input: a complete package extracts. -/
theorem unzip_package_validation_C6_witness :
    _unzip_sequence_package
      ["ncbi_dataset/data/data_report.jsonl", "ncbi_dataset/data/genomic.fna"] [] =
      (["ncbi_dataset/data/data_report.jsonl", "ncbi_dataset/data/genomic.fna"],
        .ok ()) :=
  (unzip_package_validation_C6
      ["ncbi_dataset/data/data_report.jsonl", "ncbi_dataset/data/genomic.fna"] []).1
    ⟨⟨"ncbi_dataset/data/data_report.jsonl", by decide, by decide⟩,
      ⟨"ncbi_dataset/data/genomic.fna", by decide, by decide⟩⟩

/-- Counterexample to C7 as stated: with reuse enabled and the
date-stamped file already present, the call still performs one network
request — the object-store version resolution happens before the
existence check — so the request trace is not empty. -/
theorem download_reuse_C7_counterexample :
    download_covid_genome_metadata ("v1", "https://bucket/metadata.tsv.zst")
      "files/ncov/open/metadata.tsv.zst" "/data" (some "2024-03-01") ⟨2024, 3, 5⟩
      true ["/data/2024-03-01-metadata.tsv.zst"] =
      .ok ("/data/2024-03-01-metadata.tsv.zst", [NetEffect.resolveVersion]) ∧
    [NetEffect.resolveVersion] ≠ ([] : List NetEffect) :=
  ⟨rfl, by decide⟩

/-- Claim C7 (amended): with reuse enabled and a file matching the
computed date-stamped filename already present, the call returns that
existing path unchanged and performs no payload-download request; it does
still perform the version-resolution request to the object store, which
happens before the existence check. -/
theorem download_reuse_no_download_C7 (resolved : String × String)
    (key dataPath : String) (asOf : Option String) (now : PyDate)
    (existingFiles : List String) (dt : PyDate)
    (hdt : (match asOf with | none => some now | some s => pyStrptimeYmd s) = some dt)
    (hex : (dataPath ++ "/" ++ formatDate dt ++ "-" ++ basename key) ∈ existingFiles) :
    download_covid_genome_metadata resolved key dataPath asOf now true existingFiles =
      .ok (dataPath ++ "/" ++ formatDate dt ++ "-" ++ basename key,
        [NetEffect.resolveVersion]) := by
  unfold download_covid_genome_metadata
  rw [hdt]
  simp only [_get_s3_object_url]
  rw [if_pos (Bool.and_eq_true_iff.mpr ⟨rfl, List.elem_iff.mpr hex⟩)]

/-- Witness for C7 (amended) at a concrete input. -/
theorem download_reuse_no_download_C7_witness :
    download_covid_genome_metadata ("v2", "https://bucket/metadata.tsv.zst")
      "files/ncov/open/metadata.tsv.zst" "/tmp" (some "2024-05-20") ⟨2024, 5, 21⟩
      true ["/tmp/2024-05-20-metadata.tsv.zst"] =
      .ok ("/tmp/2024-05-20-metadata.tsv.zst", [NetEffect.resolveVersion]) := by
  have h := download_reuse_no_download_C7 ("v2", "https://bucket/metadata.tsv.zst")
    "files/ncov/open/metadata.tsv.zst" "/tmp" (some "2024-05-20") ⟨2024, 5, 21⟩
    ["/tmp/2024-05-20-metadata.tsv.zst"] ⟨2024, 5, 20⟩ (by decide) (by decide)
  simpa using h

/-- Claim C8: supplying both or neither of metadata_path/metadata_url
makes `get_covid_genome_metadata` fail immediately with the assertion
error, before any I/O; supplying exactly one never triggers the assertion
failure. -/
theorem metadata_loader_mutual_exclusivity_C8 (p u : Option String) (n : Option Nat) :
    (((p.isSome = true ∧ u.isSome = true) ∨ (p = none ∧ u = none)) →
      get_covid_genome_metadata p u n =
        ([], .error (.assertionError
          "Specify metadata_path or metadata_url, but not both."))) ∧
    (p.isSome ≠ u.isSome →
      ∀ m, (get_covid_genome_metadata p u n).2 ≠ .error (.assertionError m)) := by
  constructor
  · rintro (⟨hp, hu⟩ | ⟨rfl, rfl⟩)
    · rcases p with _ | p₀
      · simp at hp
      rcases u with _ | u₀
      · simp at hu
      simp [get_covid_genome_metadata]
    · simp [get_covid_genome_metadata]
  · intro hne m
    rcases p with _ | p₀ <;> rcases u with _ | u₀
    · simp at hne
    · by_cases ht : truthyStr u₀ <;> simp [get_covid_genome_metadata, ht]
    · by_cases h1 : pySuffix p₀ = ".tsv" <;> by_cases h2 : pySuffix p₀ = ".zst" <;>
        by_cases h3 : pySuffix p₀ = ".xz" <;>
        simp [get_covid_genome_metadata, h1, h2, h3]
    · simp at hne

/-- Witness for C8 at a concrete input: both sources supplied fails with
the assertion error and no I/O. -/
theorem metadata_loader_mutual_exclusivity_C8_witness :
    get_covid_genome_metadata (some "metadata.tsv") (some "https://x/metadata.tsv")
      none =
      ([], .error (.assertionError
        "Specify metadata_path or metadata_url, but not both.")) :=
  (metadata_loader_mutual_exclusivity_C8 (some "metadata.tsv")
      (some "https://x/metadata.tsv") none).1 (Or.inl ⟨rfl, rfl⟩)

/-- Claim C9: a successful fetch returns (and the reuse check matches on)
the path `data_path / "{YYYY-MM-DD}-{basename of key}"`, where the date
is the parsed as_of argument, or "now" when as_of is omitted; the request
trace is exactly the resolver call iff the reuse short-circuit fired. -/
theorem download_filename_scheme_C9 (resolved : String × String)
    (key dataPath : String) (asOf : Option String) (now : PyDate)
    (useExisting : Bool) (existingFiles : List String) (dt : PyDate)
    (hdt : (match asOf with | none => some now | some s => pyStrptimeYmd s) = some dt) :
    ∃ eff,
      download_covid_genome_metadata resolved key dataPath asOf now useExisting
          existingFiles =
        .ok (dataPath ++ "/" ++ formatDate dt ++ "-" ++ basename key, eff) ∧
      ((useExisting = true ∧
          (dataPath ++ "/" ++ formatDate dt ++ "-" ++ basename key) ∈ existingFiles) ↔
        eff = [NetEffect.resolveVersion]) := by
  unfold download_covid_genome_metadata
  rw [hdt]
  simp only [_get_s3_object_url]
  by_cases hc : (useExisting && existingFiles.contains
      (dataPath ++ "/" ++ formatDate dt ++ "-" ++ basename key)) = true
  · rw [if_pos hc]
    have hc' := Bool.and_eq_true_iff.mp hc
    exact ⟨[NetEffect.resolveVersion], rfl,
      fun _ => rfl, fun _ => ⟨hc'.1, List.elem_iff.mp hc'.2⟩⟩
  · rw [if_neg hc]
    refine ⟨[NetEffect.resolveVersion] ++ [NetEffect.httpGet resolved.2], rfl, ?_, ?_⟩
    · rintro ⟨h1, h2⟩
      exact absurd (Bool.and_eq_true_iff.mpr ⟨h1, List.elem_iff.mpr h2⟩) hc
    · intro h
      exact absurd h (by simp)

/-- Witness for C9 at a concrete input: no as_of given, "now" is used. -/
theorem download_filename_scheme_C9_witness :
    ∃ eff,
      download_covid_genome_metadata ("v3", "https://bucket/metadata.tsv.zst")
          "files/ncov/open/metadata.tsv.zst" "/data" none ⟨2024, 7, 4⟩ false [] =
        .ok ("/data/" ++ formatDate ⟨2024, 7, 4⟩ ++ "-" ++
          basename "files/ncov/open/metadata.tsv.zst", eff) ∧
      ((false = true ∧
          ("/data/" ++ formatDate ⟨2024, 7, 4⟩ ++ "-" ++
            basename "files/ncov/open/metadata.tsv.zst") ∈ ([] : List String)) ↔
        eff = [NetEffect.resolveVersion]) :=
  download_filename_scheme_C9 ("v3", "https://bucket/metadata.tsv.zst")
    "files/ncov/open/metadata.tsv.zst" "/data" none ⟨2024, 7, 4⟩ false []
    ⟨2024, 7, 4⟩ rfl

/-- Claim C10: a local metadata_path whose suffix is none of ".tsv",
".zst", ".xz" (with no URL) makes `get_covid_genome_metadata` fail by
referencing the never-assigned local variable `metadata` at the return
statement. -/
theorem metadata_loader_unknown_suffix_C10 (p : String) (n : Option Nat)
    (h1 : pySuffix p ≠ ".tsv") (h2 : pySuffix p ≠ ".zst")
    (h3 : pySuffix p ≠ ".xz") :
    get_covid_genome_metadata (some p) none n =
      ([], .error (.unboundLocalError "metadata")) := by
  simp [get_covid_genome_metadata, h1, h2, h3]

/-- Witness for C10 at a concrete input: a ".csv" path. -/
theorem metadata_loader_unknown_suffix_C10_witness :
    get_covid_genome_metadata (some "metadata.csv") none none =
      ([], .error (.unboundLocalError "metadata")) :=
  metadata_loader_unknown_suffix_C10 "metadata.csv" none
    (by decide) (by decide) (by decide)
